import Mathlib

/-!
Verification of the FinTracker personal-finance application core:
recurring-item materialization, monthly summary aggregation, trend
aggregation, budget alert evaluation, and the credit-card / analytics
frontend logic.  The backend core is modelled from the specification
(its code is not part of this source tree; only its frontend callers
are), while the frontend functions are embedded directly from the JSX
source files.
-/

namespace FinTracker

/-- A calendar date (year, month, day); no time component. -/
structure FDate where
  year : Nat
  month : Nat
  day : Nat
deriving DecidableEq, Repr

/-- An Income record, as in the spec data model (§3). -/
structure Income where
  id : Nat
  user_id : Nat
  source : String
  amount : ℚ
  date : FDate
  is_recurring : Bool
  recurring_item_id : Option Nat
deriving DecidableEq, Repr

/-- An Expense record, as in the spec data model (§3). -/
structure Expense where
  id : Nat
  user_id : Nat
  category : String
  amount : ℚ
  date : FDate
  payment_method : String
  credit_card_id : Option Nat
  is_recurring : Bool
  recurring_item_id : Option Nat
deriving DecidableEq, Repr

/-- A RecurringItem template, as in the spec data model (§3). -/
structure RecurringItem where
  id : Nat
  user_id : Nat
  item_type : String
  source : String
  category : String
  amount : ℚ
  description : String
  payment_method : String
  credit_card_id : Option Nat
  day_of_month : Nat
deriving DecidableEq, Repr

/-- A Budget record, as in the spec data model (§3). -/
structure Budget where
  id : Nat
  user_id : Nat
  month : Nat
  year : Nat
  total_budget : ℚ
  category_budgets : List (String × ℚ)
deriving DecidableEq, Repr

/-- The Ledger Store: per-user record collections (§2, external collaborator). -/
structure Store where
  incomes : List Income
  expenses : List Expense
  budgets : List Budget
  recurring_items : List RecurringItem
deriving DecidableEq, Repr

/-- Gregorian leap-year rule. -/
def isLeapYear (y : Nat) : Bool :=
  (y % 4 == 0 && y % 100 != 0) || (y % 400 == 0)

/-- Last day of a calendar month (months numbered 1-12). -/
def lastDayOfMonth (m y : Nat) : Nat :=
  if m == 2 then (if isLeapYear y then 29 else 28)
  else if m == 4 || m == 6 || m == 9 || m == 11 then 30
  else 31

/-- Does date d fall inside month m of year y? -/
def inPeriod (d : FDate) (m y : Nat) : Bool :=
  d.month == m && d.year == y

/-- Modelled from the spec: the §4.1 existence check of the Recurring
Materializer (whose backend code is missing from this source tree): a
concrete Income or Expense record already exists for
(user_id, recurring_item_id = item.id, month, year). -/
def materializedFor (s : Store) (item : RecurringItem) (m y : Nat) : Bool :=
  s.incomes.any (fun r =>
      r.user_id == item.user_id && r.recurring_item_id == some item.id &&
      inPeriod r.date m y)
  || s.expenses.any (fun r =>
      r.user_id == item.user_id && r.recurring_item_id == some item.id &&
      inPeriod r.date m y)

/-- Modelled from the spec: a fresh record id for a synthesized record. -/
def freshId (s : Store) : Nat :=
  s.incomes.length + s.expenses.length

/-- Modelled from the spec: §4.1 record synthesis.  The date is
year-month-day with day = min(item.day_of_month, last day of the month);
amount, category/source, description, payment method and card reference
are copied from the template; is_recurring is true and
recurring_item_id is the template id. -/
def materializedDate (item : RecurringItem) (m y : Nat) : FDate :=
  ⟨y, m, min item.day_of_month (lastDayOfMonth m y)⟩

/-- Modelled from the spec: the synthesized Income record of §4.1. -/
def newIncomeRecord (s : Store) (item : RecurringItem) (m y : Nat) : Income :=
  { id := freshId s, user_id := item.user_id, source := item.source,
    amount := item.amount, date := materializedDate item m y,
    is_recurring := true, recurring_item_id := some item.id }

/-- Modelled from the spec: the synthesized Expense record of §4.1. -/
def newExpenseRecord (s : Store) (item : RecurringItem) (m y : Nat) : Expense :=
  { id := freshId s, user_id := item.user_id, category := item.category,
    amount := item.amount, date := materializedDate item m y,
    payment_method := item.payment_method,
    credit_card_id := item.credit_card_id, is_recurring := true,
    recurring_item_id := some item.id }

def materializeItem (s : Store) (item : RecurringItem) (m y : Nat) : Store :=
  if item.item_type == "income" then
    { s with incomes := s.incomes ++ [newIncomeRecord s item m y] }
  else
    { s with expenses := s.expenses ++ [newExpenseRecord s item m y] }

/-- Modelled from the spec: the §4.1 per-item loop.  For each template,
if no materialized record exists for the period, synthesize one;
returns the updated store, the created count and the created ids. -/
def processItems (s : Store) (items : List RecurringItem) (m y : Nat) :
    Store × Nat × List Nat :=
  match items with
  | [] => (s, 0, [])
  | item :: rest =>
    if materializedFor s item m y then
      processItems s rest m y
    else
      let s2 := materializeItem s item m y
      let res := processItems s2 rest m y
      (res.1, res.2.1 + 1, freshId s :: res.2.2)

/-- Modelled from the spec: §4.1 contract
process(user_id, month, year) over the user's RecurringItem templates. -/
def process (s : Store) (u m y : Nat) : Store × Nat × List Nat :=
  processItems s (s.recurring_items.filter (fun it => it.user_id == u)) m y

/-- A monthly Summary (§4.2); breakdowns are association lists whose key
order is first-observed order (§9). -/
structure Summary where
  total_income : ℚ
  total_expenses : ℚ
  net_savings : ℚ
  category_breakdown : List (String × ℚ)
  payment_breakdown : List (String × ℚ)
  income_breakdown : List (String × ℚ)
deriving DecidableEq, Repr

/-- Add an amount to a breakdown map, appending a new key at the end in
first-observed order (§9). -/
def addToBreakdown (b : List (String × ℚ)) (k : String) (v : ℚ) :
    List (String × ℚ) :=
  match b with
  | [] => [(k, v)]
  | (k0, v0) :: rest =>
    if k0 == k then (k0, v0 + v) :: rest
    else (k0, v0) :: addToBreakdown rest k v

/-- Modelled from the spec: the §4.2 Monthly Summary Aggregator (whose
backend code is missing from this source tree).  Filters the user's
Income and Expense records to the period and folds them into totals and
breakdown maps. -/
def summarize (s : Store) (u m y : Nat) : Summary :=
  let incs := s.incomes.filter (fun r => r.user_id == u && inPeriod r.date m y)
  let exps := s.expenses.filter (fun r => r.user_id == u && inPeriod r.date m y)
  let ti := incs.foldl (fun acc r => acc + r.amount) 0
  let te := exps.foldl (fun acc r => acc + r.amount) 0
  { total_income := ti
    total_expenses := te
    net_savings := ti - te
    category_breakdown :=
      exps.foldl (fun b r => addToBreakdown b r.category r.amount) []
    payment_breakdown :=
      exps.foldl (fun b r => addToBreakdown b r.payment_method r.amount) []
    income_breakdown :=
      incs.foldl (fun b r => addToBreakdown b r.source r.amount) [] }

/-- One entry of the trend sequence (§4.3). -/
structure TrendEntry where
  month : Nat
  year : Nat
  month_name : String
  income : ℚ
  expenses : ℚ
  savings : ℚ
deriving DecidableEq, Repr

/-- English month name for months 1-12. -/
def monthName (m : Nat) : String :=
  match m with
  | 1 => "January" | 2 => "February" | 3 => "March" | 4 => "April"
  | 5 => "May" | 6 => "June" | 7 => "July" | 8 => "August"
  | 9 => "September" | 10 => "October" | 11 => "November" | 12 => "December"
  | _ => ""

/-- The calendar month preceding (m, y). -/
def prevMonth (m y : Nat) : Nat × Nat :=
  if m == 1 then (12, y - 1) else (m - 1, y)

/-- Modelled from the spec: the §4.3 month enumeration — the n
consecutive calendar months ending at (cm, cy), oldest first. -/
def monthsWindow : Nat → Nat → Nat → List (Nat × Nat)
  | 0, _, _ => []
  | n + 1, cm, cy =>
    monthsWindow n (prevMonth cm cy).1 (prevMonth cm cy).2 ++ [(cm, cy)]

/-- Modelled from the spec: the §4.3 Trend Aggregator (whose backend
code is missing from this source tree).  The ambient current month/year
is passed explicitly as (cm, cy). -/
def trends (s : Store) (u months_back cm cy : Nat) : List TrendEntry :=
  (monthsWindow months_back cm cy).map (fun p =>
    let sum := summarize s u p.1 p.2
    { month := p.1, year := p.2, month_name := monthName p.1,
      income := sum.total_income, expenses := sum.total_expenses,
      savings := sum.net_savings })

/-- A budget alert (§4.4). -/
structure Alert where
  type : String
  message : String
deriving DecidableEq, Repr

/-- The §4.4 evaluate result shape. -/
structure AlertsResult where
  alerts : List Alert
  percentage : ℚ
  total_spent : ℚ
  budget : ℚ
deriving DecidableEq, Repr

/-- Modelled from the spec: fetch the Budget for (user_id, month, year)
(§6 getBudget collaborator operation). -/
def getBudget (s : Store) (u m y : Nat) : Option Budget :=
  s.budgets.find? (fun b => b.user_id == u && b.month == m && b.year == y)

/-- Modelled from the spec: the §4.4 overall threshold policy —
percentage at least 100 emits one danger alert, else at least 80 one
warning alert, else none. -/
def overallAlerts (pct : ℚ) : List Alert :=
  if 100 ≤ pct then
    [{ type := "danger",
       message := "You have exceeded your budget for this month!" }]
  else if 80 ≤ pct then
    [{ type := "warning",
       message := "You are approaching your budget limit!" }]
  else []

/-- Look up a key in a breakdown map. -/
def lookupBreakdown (b : List (String × ℚ)) (k : String) : Option ℚ :=
  (b.find? (fun p => p.1 == k)).map (fun p => p.2)

/-- Modelled from the spec: the §4.4 per-category alerts, in the order
the categories were defined in category_budgets, with the same 80/100
thresholds and the divide-by-zero guard. -/
def categoryAlerts (cbs : List (String × ℚ)) (breakdown : List (String × ℚ)) :
    List Alert :=
  (cbs.map (fun cb =>
    match lookupBreakdown breakdown cb.1 with
    | none => []
    | some spent =>
      let pct : ℚ := if cb.2 = 0 then 0 else spent / cb.2 * 100
      if 100 ≤ pct then
        [{ type := "danger",
           message := "You have exceeded your " ++ cb.1 ++ " budget!" }]
      else if 80 ≤ pct then
        [{ type := "warning",
           message := "You are approaching your " ++ cb.1 ++ " budget limit!" }]
      else [])).flatten

/-- Modelled from the spec: the §4.4 Budget Alert Evaluator (whose
backend code is missing from this source tree).  No budget degrades to
the empty result; percentage is guarded against a zero total budget;
the overall alert precedes the category alerts. -/
def evaluate (s : Store) (u m y : Nat) : AlertsResult :=
  match getBudget s u m y with
  | none => { alerts := [], percentage := 0, total_spent := 0, budget := 0 }
  | some b =>
    let spent := (summarize s u m y).total_expenses
    let pct : ℚ := if b.total_budget = 0 then 0
                   else spent / b.total_budget * 100
    { alerts := overallAlerts pct ++
        categoryAlerts b.category_budgets (summarize s u m y).category_breakdown
      percentage := pct
      total_spent := spent
      budget := b.total_budget }

/-- A CreditCard record, as in the spec data model (§3) and the
CreditCards page form state. -/
structure CreditCard where
  id : Nat
  user_id : Nat
  name : String
  last_four_digits : String
  card_type : String
deriving DecidableEq, Repr

/-- Outcome of submitting the credit-card creation form: either a
validation rejection with its toast message, or a POST request carrying
the form payload. -/
inductive SubmitResult where
  | rejected (message : String)
  | requested (name last_four_digits card_type : String)
deriving DecidableEq, Repr

/-- The JS regular expression test /^\d\x7b4\x7d$/.test(s): the whole
string is exactly four decimal digits. -/
def regexFourDigitsTest (s : String) : Bool :=
  s.length == 4 && s.toList.all Char.isDigit

/-- handleSubmit of the CreditCards page: reject when name or
last-four-digits is empty, then when the digits are not exactly four
numeric characters; otherwise issue the create request. -/
def handleSubmit (name lastFourDigits cardType : String) : SubmitResult :=
  if name == "" || lastFourDigits == "" then
    SubmitResult.rejected "Please fill in all required fields"
  else if !(lastFourDigits.length == 4) || !(regexFourDigitsTest lastFourDigits) then
    SubmitResult.rejected "Please enter exactly 4 digits"
  else
    SubmitResult.requested name lastFourDigits cardType

/-- The onChange handler of the last-four-digits input: strip every
non-digit character, then keep at most the first four. -/
def handleDigitsChange (value : String) : String :=
  ((value.toList.filter Char.isDigit).take 4).asString

/-- getCardName of the Expenses page and of ItemsList: find the
referenced card and render its label, falling back to the empty string
when the reference is orphaned. -/
def getCardName (creditCards : List CreditCard) (cardId : Option Nat) : String :=
  match creditCards.find? (fun c => some c.id == cardId) with
  | some card => card.name ++ " (****" ++ card.last_four_digits ++ ")"
  | none => ""

/-- The ItemsList rendering loop: every item is mapped to a rendered
row carrying its card label, regardless of whether the card exists. -/
def renderItems (items : List Expense) (creditCards : List CreditCard) :
    List (Expense × String) :=
  items.map (fun item => (item, getCardName creditCards item.credit_card_id))

/-- The Analytics page per-row savings rate:
month.income > 0 ? month.savings / month.income * 100 : 0. -/
def savingsRate (income savings : ℚ) : ℚ :=
  if 0 < income then savings / income * 100 else 0

/-- The Analytics page total savings over the loaded trend entries:
totalIncome - totalExpenses, each a reduce over the list. -/
def totalSavingsOf (trendsList : List TrendEntry) : ℚ :=
  trendsList.foldl (fun sum t => sum + t.income) 0 -
    trendsList.foldl (fun sum t => sum + t.expenses) 0

/-- The Analytics page average monthly savings:
trends.length > 0 ? totalSavings / trends.length : 0. -/
def avgMonthlySavings (trendsList : List TrendEntry) : ℚ :=
  if 0 < trendsList.length then
    totalSavingsOf trendsList / (trendsList.length : ℚ)
  else 0

/-! ### Concrete sample data used to instantiate the theorems -/

/-- A sample recurring income template with day_of_month 31. -/
def sampleItem : RecurringItem :=
  { id := 7, user_id := 1, item_type := "income", source := "Salary",
    category := "", amount := 3000, description := "", payment_method := "",
    credit_card_id := none, day_of_month := 31 }

/-- A store holding only the sample recurring template. -/
def sampleStore : Store :=
  { incomes := [], expenses := [], budgets := [], recurring_items := [sampleItem] }

/-- The empty store. -/
def emptyStore : Store :=
  { incomes := [], expenses := [], budgets := [], recurring_items := [] }

/-- A January 2025 budget of 1000 with no category budgets. -/
def budget1000 : Budget :=
  { id := 1, user_id := 1, month := 1, year := 2025, total_budget := 1000,
    category_budgets := [] }

/-- A January 2025 budget of 0. -/
def budget0 : Budget :=
  { id := 2, user_id := 1, month := 1, year := 2025, total_budget := 0,
    category_budgets := [] }

/-- A cash expense of the given amount dated 2025-01-15 for user 1. -/
def sampleExpense (a : ℚ) : Expense :=
  { id := 1, user_id := 1, category := "Housing", amount := a,
    date := ⟨2025, 1, 15⟩, payment_method := "cash", credit_card_id := none,
    is_recurring := false, recurring_item_id := none }

/-- A store with the 1000 budget and a single expense of the given amount. -/
def budgetStore (a : ℚ) : Store :=
  { incomes := [], expenses := [sampleExpense a], budgets := [budget1000],
    recurring_items := [] }

/-- A store with the zero budget and a single expense of 500. -/
def zeroBudgetStore : Store :=
  { incomes := [], expenses := [sampleExpense 500], budgets := [budget0],
    recurring_items := [] }

/-- An expense whose card reference points at card id 5. -/
def orphanExpense : Expense :=
  { id := 9, user_id := 1, category := "Food & Dining", amount := 25,
    date := ⟨2025, 1, 10⟩, payment_method := "credit_card",
    credit_card_id := some 5, is_recurring := false,
    recurring_item_id := none }

/-- A sample trend entry for January 2025. -/
def sampleTrendEntry : TrendEntry :=
  { month := 1, year := 2025, month_name := "January", income := 3000,
    expenses := 1500, savings := 1500 }

/-! ### Lemmas about the Recurring Materializer -/

/-- Materializing an item only appends to the income list. -/
theorem materializeItem_incomes (s : Store) (it : RecurringItem) (m y : Nat) :
    ∃ l, (materializeItem s it m y).incomes = s.incomes ++ l := by
  by_cases hty : it.item_type == "income"
  · exact ⟨[newIncomeRecord s it m y], by simp [materializeItem, hty]⟩
  · exact ⟨[], by simp [materializeItem, hty]⟩

/-- Materializing an item only appends to the expense list. -/
theorem materializeItem_expenses (s : Store) (it : RecurringItem) (m y : Nat) :
    ∃ l, (materializeItem s it m y).expenses = s.expenses ++ l := by
  by_cases hty : it.item_type == "income"
  · exact ⟨[], by simp [materializeItem, hty]⟩
  · exact ⟨[newExpenseRecord s it m y], by simp [materializeItem, hty]⟩

/-- Materializing any item preserves an existing materialization mark. -/
theorem materializedFor_materializeItem_mono (s : Store) (it it2 : RecurringItem)
    (m y : Nat) (h : materializedFor s it m y = true) :
    materializedFor (materializeItem s it2 m y) it m y = true := by
  obtain ⟨l1, h1⟩ := materializeItem_incomes s it2 m y
  obtain ⟨l2, h2⟩ := materializeItem_expenses s it2 m y
  unfold materializedFor at *
  rw [h1, h2]
  simp only [Bool.or_eq_true, List.any_append] at *
  tauto

/-- After materializing an item, that item is materialized. -/
theorem materializedFor_materializeItem_self (s : Store) (it : RecurringItem)
    (m y : Nat) : materializedFor (materializeItem s it m y) it m y = true := by
  unfold materializedFor materializeItem
  by_cases hty : it.item_type == "income" <;>
    simp [hty, List.any_append, inPeriod, newIncomeRecord, newExpenseRecord,
      materializedDate]

/-- Processing a list of items preserves an existing materialization mark. -/
theorem materializedFor_processItems_mono (items : List RecurringItem)
    (s : Store) (it : RecurringItem) (m y : Nat)
    (h : materializedFor s it m y = true) :
    materializedFor (processItems s items m y).1 it m y = true := by
  induction items generalizing s with
  | nil => simpa [processItems] using h
  | cons hd tl ih =>
    unfold processItems
    by_cases hm : materializedFor s hd m y
    · simpa [hm] using ih s h
    · simpa [hm] using
        ih (materializeItem s hd m y)
          (materializedFor_materializeItem_mono s it hd m y h)

/-- After processing, every item in the processed list is materialized. -/
theorem materializedFor_processItems (items : List RecurringItem)
    (s : Store) (m y : Nat) :
    ∀ it ∈ items, materializedFor (processItems s items m y).1 it m y = true := by
  induction items generalizing s with
  | nil => intro it hit; cases hit
  | cons hd tl ih =>
    intro it hit
    rcases List.mem_cons.mp hit with hEq | hTl
    · subst hEq
      unfold processItems
      by_cases hm : materializedFor s it m y
      · simpa [hm] using materializedFor_processItems_mono tl s it m y hm
      · simpa [hm] using
          materializedFor_processItems_mono tl (materializeItem s it m y) it m y
            (materializedFor_materializeItem_self s it m y)
    · unfold processItems
      by_cases hm : materializedFor s hd m y
      · simpa [hm] using ih s it hTl
      · simpa [hm] using ih (materializeItem s hd m y) it hTl

/-- Processing never changes the stored RecurringItem templates. -/
theorem processItems_recurring_items (items : List RecurringItem)
    (s : Store) (m y : Nat) :
    (processItems s items m y).1.recurring_items = s.recurring_items := by
  induction items generalizing s with
  | nil => rfl
  | cons hd tl ih =>
    unfold processItems
    by_cases hm : materializedFor s hd m y
    · simpa [hm] using ih s
    · have h2 : (materializeItem s hd m y).recurring_items = s.recurring_items := by
        unfold materializeItem
        by_cases hty : hd.item_type == "income" <;> simp [hty]
      simpa [hm, h2] using ih (materializeItem s hd m y)

/-- Processing a list of already-materialized items is a no-op. -/
theorem processItems_all_materialized (items : List RecurringItem)
    (s : Store) (m y : Nat)
    (h : ∀ it ∈ items, materializedFor s it m y = true) :
    processItems s items m y = (s, 0, []) := by
  induction items with
  | nil => rfl
  | cons hd tl ih =>
    have hhd := h hd (List.mem_cons_self hd tl)
    unfold processItems
    simp only [hhd, if_pos]
    exact ih (fun it hit => h it (List.mem_cons_of_mem hd hit))

/-- Every income record in the processed store either was already
there, or is the clamped-date synthesis of one of the processed
templates. -/
theorem processItems_incomes_spec (items : List RecurringItem) (s : Store)
    (m y : Nat) :
    ∀ r ∈ (processItems s items m y).1.incomes,
      r ∈ s.incomes ∨
      ∃ item ∈ items, r.recurring_item_id = some item.id ∧
        r.date = materializedDate item m y ∧ r.amount = item.amount ∧
        r.source = item.source ∧ r.user_id = item.user_id ∧
        r.is_recurring = true := by
  induction items generalizing s with
  | nil => intro r hr; exact Or.inl hr
  | cons hd tl ih =>
    intro r hr
    unfold processItems at hr
    by_cases hm : materializedFor s hd m y
    · simp only [hm, if_pos] at hr
      rcases ih s r hr with hold | ⟨item, hmemt, hrest⟩
      · exact Or.inl hold
      · exact Or.inr ⟨item, List.mem_cons_of_mem hd hmemt, hrest⟩
    · simp only [hm, if_neg, Bool.false_eq_true, not_false_eq_true] at hr
      rcases ih (materializeItem s hd m y) r hr with hold | ⟨item, hmemt, hrest⟩
      · by_cases hty : hd.item_type == "income"
        · simp only [materializeItem, hty, if_pos, List.mem_append,
            List.mem_singleton] at hold
          rcases hold with h0 | h0
          · exact Or.inl h0
          · subst h0
            exact Or.inr ⟨hd, List.mem_cons_self hd tl,
              rfl, rfl, rfl, rfl, rfl, rfl⟩
        · simp only [materializeItem, hty, if_neg, Bool.false_eq_true,
            not_false_eq_true] at hold
          exact Or.inl hold
      · exact Or.inr ⟨item, List.mem_cons_of_mem hd hmemt, hrest⟩

/-- Every expense record in the processed store either was already
there, or is the clamped-date synthesis of one of the processed
templates. -/
theorem processItems_expenses_spec (items : List RecurringItem) (s : Store)
    (m y : Nat) :
    ∀ r ∈ (processItems s items m y).1.expenses,
      r ∈ s.expenses ∨
      ∃ item ∈ items, r.recurring_item_id = some item.id ∧
        r.date = materializedDate item m y ∧ r.amount = item.amount ∧
        r.category = item.category ∧ r.user_id = item.user_id ∧
        r.is_recurring = true := by
  induction items generalizing s with
  | nil => intro r hr; exact Or.inl hr
  | cons hd tl ih =>
    intro r hr
    unfold processItems at hr
    by_cases hm : materializedFor s hd m y
    · simp only [hm, if_pos] at hr
      rcases ih s r hr with hold | ⟨item, hmemt, hrest⟩
      · exact Or.inl hold
      · exact Or.inr ⟨item, List.mem_cons_of_mem hd hmemt, hrest⟩
    · simp only [hm, if_neg, Bool.false_eq_true, not_false_eq_true] at hr
      rcases ih (materializeItem s hd m y) r hr with hold | ⟨item, hmemt, hrest⟩
      · by_cases hty : hd.item_type == "income"
        · simp only [materializeItem, hty, if_pos] at hold
          exact Or.inl hold
        · simp only [materializeItem, hty, if_neg, Bool.false_eq_true,
            not_false_eq_true, List.mem_append, List.mem_singleton] at hold
          rcases hold with h0 | h0
          · exact Or.inl h0
          · subst h0
            exact Or.inr ⟨hd, List.mem_cons_self hd tl,
              rfl, rfl, rfl, rfl, rfl, rfl⟩
      · exact Or.inr ⟨item, List.mem_cons_of_mem hd hmemt, hrest⟩

/-! ### Claim theorems -/

/-- C1: calling process(u, m, y) a second time immediately after a
first call creates no records — the second call's created_count is 0,
its created ids are empty, and the store is unchanged. -/
theorem claim_c1_process_idempotent (s : Store) (u m y : Nat) :
    process (process s u m y).1 u m y = ((process s u m y).1, 0, []) := by
  unfold process
  rw [processItems_recurring_items]
  exact processItems_all_materialized _ _ m y
    (materializedFor_processItems _ s m y)

/-- C2: every record created by process carries the target month and
year, references one of the user's RecurringItem templates, and has its
day clamped to min(day_of_month, last day of the month); concretely,
day 31 yields April 30, February 28 in the non-leap year 2025, and
February 29 in the leap year 2024. -/
theorem claim_c2_day_clamping (s : Store) (u m y : Nat) :
    (∀ r ∈ (process s u m y).1.incomes, r ∉ s.incomes →
      ∃ item ∈ s.recurring_items, r.recurring_item_id = some item.id ∧
        r.date.day = min item.day_of_month (lastDayOfMonth m y) ∧
        r.date.month = m ∧ r.date.year = y) ∧
    (∀ r ∈ (process s u m y).1.expenses, r ∉ s.expenses →
      ∃ item ∈ s.recurring_items, r.recurring_item_id = some item.id ∧
        r.date.day = min item.day_of_month (lastDayOfMonth m y) ∧
        r.date.month = m ∧ r.date.year = y) ∧
    (∀ y', min 31 (lastDayOfMonth 4 y') = 30) ∧
    (isLeapYear 2025 = false ∧ min 31 (lastDayOfMonth 2 2025) = 28) ∧
    (isLeapYear 2024 = true ∧ min 31 (lastDayOfMonth 2 2024) = 29) := by
  refine ⟨?_, ?_, ?_, ?_, ?_⟩
  · intro r hr hnot
    rcases processItems_incomes_spec _ s m y r hr with hold | ⟨item, hmf, h1, h2, _⟩
    · exact absurd hold hnot
    · exact ⟨item, List.mem_of_mem_filter hmf, h1, by rw [h2]; rfl,
        by rw [h2]; rfl, by rw [h2]; rfl⟩
  · intro r hr hnot
    rcases processItems_expenses_spec _ s m y r hr with hold | ⟨item, hmf, h1, h2, _⟩
    · exact absurd hold hnot
    · exact ⟨item, List.mem_of_mem_filter hmf, h1, by rw [h2]; rfl,
        by rw [h2]; rfl, by rw [h2]; rfl⟩
  · intro y'; rfl
  · exact ⟨rfl, rfl⟩
  · exact ⟨rfl, rfl⟩

/-- Witness for C2: processing the sample template (day_of_month 31)
for April 2025 produces a record whose day is clamped to 30. -/
theorem claim_c2_day_clamping_witness :
    ∃ item ∈ sampleStore.recurring_items,
      (newIncomeRecord sampleStore sampleItem 4 2025).recurring_item_id =
        some item.id ∧
      (newIncomeRecord sampleStore sampleItem 4 2025).date.day =
        min item.day_of_month (lastDayOfMonth 4 2025) ∧
      (newIncomeRecord sampleStore sampleItem 4 2025).date.month = 4 ∧
      (newIncomeRecord sampleStore sampleItem 4 2025).date.year = 2025 := by
  apply (claim_c2_day_clamping sampleStore 1 4 2025).1
  · show newIncomeRecord sampleStore sampleItem 4 2025 ∈
      (process sampleStore 1 4 2025).1.incomes
    decide
  · decide

/-- Folding addition of a projected amount equals the sum of the
projections. -/
theorem foldl_add_eq_sum {α : Type} (f : α → ℚ) :
    ∀ (l : List α) (a : ℚ),
      l.foldl (fun acc r => acc + f r) a = a + (l.map f).sum := by
  intro l
  induction l with
  | nil => intro a; simp
  | cons hd tl ih =>
    intro a
    simp only [List.foldl_cons, List.map_cons, List.sum_cons, ih]
    ring

/-- C3: the summary's total income is exactly the sum of the user's
Income amounts dated in the period, total expenses the analogous
Expense sum, and net savings is exactly their difference — the rational
arithmetic is exact, so the identity net_savings + total_expenses =
total_income holds with no drift. -/
theorem claim_c3_summary_additivity (s : Store) (u m y : Nat) :
    (summarize s u m y).total_income =
      ((s.incomes.filter (fun r => r.user_id == u && inPeriod r.date m y)).map
        Income.amount).sum ∧
    (summarize s u m y).total_expenses =
      ((s.expenses.filter (fun r => r.user_id == u && inPeriod r.date m y)).map
        Expense.amount).sum ∧
    (summarize s u m y).net_savings =
      (summarize s u m y).total_income - (summarize s u m y).total_expenses ∧
    (summarize s u m y).net_savings + (summarize s u m y).total_expenses =
      (summarize s u m y).total_income := by
  refine ⟨?_, ?_, ?_, ?_⟩
  · show (s.incomes.filter _).foldl (fun acc r => acc + r.amount) 0 = _
    rw [foldl_add_eq_sum Income.amount]
    simp
  · show (s.expenses.filter _).foldl (fun acc r => acc + r.amount) 0 = _
    rw [foldl_add_eq_sum Expense.amount]
    simp
  · rfl
  · show (summarize s u m y).total_income - (summarize s u m y).total_expenses +
      (summarize s u m y).total_expenses = (summarize s u m y).total_income
    ring

/-- The overall threshold policy, case by case. -/
theorem overallAlerts_cases (p : ℚ) :
    (100 ≤ p → (overallAlerts p).map Alert.type = ["danger"]) ∧
    (80 ≤ p ∧ p < 100 → (overallAlerts p).map Alert.type = ["warning"]) ∧
    (p < 80 → overallAlerts p = []) := by
  refine ⟨?_, ?_, ?_⟩
  · intro h
    simp [overallAlerts, h]
  · intro h
    simp [overallAlerts, not_le.mpr h.2, h.1]
  · intro h
    have h100 : ¬ (100 : ℚ) ≤ p := not_le.mpr (by linarith)
    have h80 : ¬ (80 : ℚ) ≤ p := not_le.mpr h
    simp [overallAlerts, h100, h80]

/-- C4: with a positive total budget configured, evaluate's alert list
is the overall alert followed by the category alerts, and the overall
part is exactly one danger alert when the percentage reaches 100,
exactly one warning alert when it is in [80, 100), and empty below 80 —
danger and warning are mutually exclusive. -/
theorem claim_c4_alert_thresholds (s : Store) (u m y : Nat) (b : Budget)
    (hb : getBudget s u m y = some b) (hpos : 0 < b.total_budget) :
    (evaluate s u m y).alerts =
      overallAlerts (evaluate s u m y).percentage ++
        categoryAlerts b.category_budgets
          (summarize s u m y).category_breakdown ∧
    (100 ≤ (evaluate s u m y).percentage →
      (overallAlerts (evaluate s u m y).percentage).map Alert.type =
        ["danger"]) ∧
    (80 ≤ (evaluate s u m y).percentage ∧
        (evaluate s u m y).percentage < 100 →
      (overallAlerts (evaluate s u m y).percentage).map Alert.type =
        ["warning"]) ∧
    ((evaluate s u m y).percentage < 80 →
      overallAlerts (evaluate s u m y).percentage = []) := by
  refine ⟨?_, (overallAlerts_cases _).1, (overallAlerts_cases _).2.1,
    (overallAlerts_cases _).2.2⟩
  simp [evaluate, hb]

/-- Witness for C4: a 1000 budget with 1000 spent yields exactly one
danger alert, with 800 spent exactly one warning alert, and with 500
spent no alerts at all. -/
theorem claim_c4_alert_thresholds_witness :
    (evaluate (budgetStore 1000) 1 1 2025).alerts.map Alert.type =
      ["danger"] ∧
    (evaluate (budgetStore 800) 1 1 2025).alerts.map Alert.type =
      ["warning"] ∧
    (evaluate (budgetStore 500) 1 1 2025).alerts = [] := by
  have h1 := claim_c4_alert_thresholds (budgetStore 1000) 1 1 2025 budget1000
    rfl (by norm_num [budget1000])
  have h2 := claim_c4_alert_thresholds (budgetStore 800) 1 1 2025 budget1000
    rfl (by norm_num [budget1000])
  have h3 := claim_c4_alert_thresholds (budgetStore 500) 1 1 2025 budget1000
    rfl (by norm_num [budget1000])
  have hp1 : (evaluate (budgetStore 1000) 1 1 2025).percentage = 100 := by
    norm_num [evaluate, getBudget, budgetStore, budget1000, summarize,
      sampleExpense, inPeriod]
  have hp2 : (evaluate (budgetStore 800) 1 1 2025).percentage = 80 := by
    norm_num [evaluate, getBudget, budgetStore, budget1000, summarize,
      sampleExpense, inPeriod]
  have hp3 : (evaluate (budgetStore 500) 1 1 2025).percentage = 50 := by
    norm_num [evaluate, getBudget, budgetStore, budget1000, summarize,
      sampleExpense, inPeriod]
  refine ⟨?_, ?_, ?_⟩
  · rw [h1.1, List.map_append, h1.2.1 (by rw [hp1])]
    simp [categoryAlerts, budget1000]
  · rw [h2.1, List.map_append, h2.2.2.1 ⟨by rw [hp2], by rw [hp2]; norm_num⟩]
    simp [categoryAlerts, budget1000]
  · rw [h3.1, h3.2.2.2 (by rw [hp3]; norm_num)]
    simp [categoryAlerts, budget1000]

/-- C5: with a budget configured, a zero total budget yields percentage
0 (no division is attempted), and a positive total budget yields
percentage = total_spent / total_budget * 100. -/
theorem claim_c5_zero_budget_guard (s : Store) (u m y : Nat) (b : Budget)
    (hb : getBudget s u m y = some b) :
    (b.total_budget = 0 → (evaluate s u m y).percentage = 0) ∧
    (0 < b.total_budget →
      (evaluate s u m y).percentage =
        (evaluate s u m y).total_spent / b.total_budget * 100) := by
  constructor
  · intro h
    simp [evaluate, hb, h]
  · intro h
    simp [evaluate, hb, ne_of_gt h]

/-- Witness for C5: the zero-budget store yields percentage 0, and the
500-spend store against the 1000 budget yields the division formula. -/
theorem claim_c5_zero_budget_guard_witness :
    (evaluate zeroBudgetStore 1 1 2025).percentage = 0 ∧
    (evaluate (budgetStore 500) 1 1 2025).percentage =
      (evaluate (budgetStore 500) 1 1 2025).total_spent / 1000 * 100 := by
  constructor
  · exact (claim_c5_zero_budget_guard zeroBudgetStore 1 1 2025 budget0 rfl).1
      rfl
  · have h := (claim_c5_zero_budget_guard (budgetStore 500) 1 1 2025
      budget1000 rfl).2 (by norm_num [budget1000])
    simpa [budget1000] using h

/-- Stepping to the previous month decrements the chronological key
y * 12 + m by one, as long as the key is at least 2. -/
theorem prevMonth_key (m y : Nat) (h1 : 1 ≤ m) (hk : 2 ≤ y * 12 + m) :
    (prevMonth m y).2 * 12 + (prevMonth m y).1 + 1 = y * 12 + m := by
  unfold prevMonth
  by_cases hm : m == 1
  · have hm1 : m = 1 := by simpa using hm
    subst hm1
    have hy : 1 ≤ y := by omega
    simp only [if_pos, beq_self_eq_true]
    omega
  · have hm1 : ¬ m = 1 := by
      intro h; subst h; simp at hm
    simp only [hm, Bool.false_eq_true, if_neg, not_false_eq_true]
    omega

/-- The previous month is again a valid month number. -/
theorem prevMonth_valid (m y : Nat) (h1 : 1 ≤ m) (h2 : m ≤ 12) :
    1 ≤ (prevMonth m y).1 ∧ (prevMonth m y).1 ≤ 12 := by
  unfold prevMonth
  by_cases hm : m == 1
  · simp [hm]
  · have hm1 : ¬ m = 1 := by
      intro h; subst h; simp at hm
    simp only [hm, Bool.false_eq_true, if_neg, not_false_eq_true]
    omega

/-- The month window has exactly the requested length. -/
theorem monthsWindow_length (n : Nat) :
    ∀ m y, (monthsWindow n m y).length = n := by
  induction n with
  | zero => intro m y; rfl
  | succ k ih =>
    intro m y
    unfold monthsWindow
    simp [ih]

/-- A nonempty month window ends at the requested month. -/
theorem monthsWindow_getLast (k m y : Nat) :
    (monthsWindow (k + 1) m y).getLast? = some (m, y) := by
  unfold monthsWindow
  exact List.getLast?_concat _

/-- Consecutive entries of the month window differ by exactly one in
the chronological key, provided the window does not step past the
beginning of the calendar. -/
theorem monthsWindow_chain (n : Nat) :
    ∀ m y, 1 ≤ m → m ≤ 12 → n ≤ y * 12 + m →
      List.Chain' (fun a b : Nat × Nat =>
        b.2 * 12 + b.1 = a.2 * 12 + a.1 + 1) (monthsWindow n m y) := by
  induction n with
  | zero => intro m y _ _ _; exact List.chain'_nil
  | succ k ih =>
    intro m y hm1 hm2 hn
    unfold monthsWindow
    rcases Nat.eq_zero_or_pos k with hk0 | hkpos
    · subst hk0
      simp [monthsWindow]
    · have hkey : 2 ≤ y * 12 + m := by omega
      have hpv := prevMonth_valid m y hm1 hm2
      have hpk := prevMonth_key m y hm1 hkey
      refine List.chain'_append.mpr ⟨?_, ?_, ?_⟩
      · exact ih _ _ hpv.1 hpv.2 (by omega)
      · exact List.chain'_singleton _
      · intro x hx z hz
        obtain ⟨k', hk'⟩ := Nat.exists_eq_succ_of_ne_zero (Nat.pos_iff_ne_zero.mp hkpos)
        rw [hk', monthsWindow_getLast] at hx
        simp only [List.head?_cons, Option.mem_def, Option.some.injEq] at hx hz
        subst hx
        subst hz
        simpa using hpk.symm

/-- C6: trends returns exactly months_back entries covering consecutive
calendar months — each adjacent pair of entries differs by exactly one
in the chronological key, so the keys are strictly increasing (pairwise,
oldest first) — and the final entry is the current month and year. -/
theorem claim_c6_trend_window (s : Store) (u n cm cy : Nat)
    (hn : 0 < n) (hm1 : 1 ≤ cm) (hm2 : cm ≤ 12)
    (hroom : n ≤ cy * 12 + cm) :
    (trends s u n cm cy).length = n ∧
    List.Chain'
      (fun a b => b.year * 12 + b.month = a.year * 12 + a.month + 1)
      (trends s u n cm cy) ∧
    (trends s u n cm cy).Pairwise
      (fun a b => a.year * 12 + a.month < b.year * 12 + b.month) ∧
    ∃ last, (trends s u n cm cy).getLast? = some last ∧
      last.month = cm ∧ last.year = cy := by
  have hch := monthsWindow_chain n cm cy hm1 hm2 hroom
  refine ⟨?_, ?_, ?_, ?_⟩
  · unfold trends
    simp [monthsWindow_length]
  · unfold trends
    refine List.chain'_map_of_chain' _ ?_ hch
    intro a b hab
    simpa using hab
  · have hch2 : List.Chain'
        (fun a b : TrendEntry => a.year * 12 + a.month < b.year * 12 + b.month)
        (trends s u n cm cy) := by
      unfold trends
      refine List.chain'_map_of_chain' _ ?_ hch
      intro a b hab
      simpa using by omega
    letI : IsTrans TrendEntry
        (fun a b => a.year * 12 + a.month < b.year * 12 + b.month) :=
      ⟨fun _ _ _ hab hbc => Nat.lt_trans hab hbc⟩
    exact List.chain'_iff_pairwise.mp hch2
  · obtain ⟨k, hk⟩ := Nat.exists_eq_succ_of_ne_zero (Nat.pos_iff_ne_zero.mp hn)
    unfold trends
    rw [List.getLast?_map, hk, monthsWindow_getLast]
    exact ⟨_, rfl, rfl, rfl⟩

/-- Witness for C6: on the empty store, trends for 6 months ending at
October 2025 has exactly 6 consecutive strictly increasing entries,
namely May 2025 through October 2025. -/
theorem claim_c6_trend_window_witness :
    (trends emptyStore 1 6 10 2025).length = 6 ∧
    List.Chain'
      (fun a b => b.year * 12 + b.month = a.year * 12 + a.month + 1)
      (trends emptyStore 1 6 10 2025) ∧
    (trends emptyStore 1 6 10 2025).Pairwise
      (fun a b => a.year * 12 + a.month < b.year * 12 + b.month) ∧
    (∃ last, (trends emptyStore 1 6 10 2025).getLast? = some last ∧
      last.month = 10 ∧ last.year = 2025) ∧
    (trends emptyStore 1 6 10 2025).map (fun t => (t.month, t.year)) =
      [(5, 2025), (6, 2025), (7, 2025), (8, 2025), (9, 2025), (10, 2025)] := by
  have h := claim_c6_trend_window emptyStore 1 6 10 2025 (by norm_num)
    (by norm_num) (by norm_num) (by norm_num)
  exact ⟨h.1, h.2.1, h.2.2.1, h.2.2.2, by decide⟩

/-- C7: the aggregators degrade to zero/empty for no data — a month
with no matching records summarizes to the all-zero Summary with empty
breakdowns, and evaluate with no Budget configured returns the empty
alert result. -/
theorem claim_c7_no_data_degrades (s : Store) (u m y : Nat) :
    (s.incomes.filter (fun r => r.user_id == u && inPeriod r.date m y) = [] →
      s.expenses.filter (fun r => r.user_id == u && inPeriod r.date m y) = [] →
      summarize s u m y =
        { total_income := 0, total_expenses := 0, net_savings := 0,
          category_breakdown := [], payment_breakdown := [],
          income_breakdown := [] }) ∧
    (getBudget s u m y = none →
      evaluate s u m y =
        { alerts := [], percentage := 0, total_spent := 0, budget := 0 }) := by
  constructor
  · intro hi he
    simp [summarize, hi, he]
  · intro hb
    simp [evaluate, hb]

/-- Witness for C7: the empty store summarizes to all zeros and
evaluates to the empty alert result. -/
theorem claim_c7_no_data_degrades_witness :
    summarize emptyStore 1 1 2025 =
      { total_income := 0, total_expenses := 0, net_savings := 0,
        category_breakdown := [], payment_breakdown := [],
        income_breakdown := [] } ∧
    evaluate emptyStore 1 1 2025 =
      { alerts := [], percentage := 0, total_spent := 0, budget := 0 } :=
  ⟨(claim_c7_no_data_degrades emptyStore 1 1 2025).1 rfl rfl,
   (claim_c7_no_data_degrades emptyStore 1 1 2025).2 rfl⟩

/-- C8: the credit-card form issues a create request exactly when the
name is nonempty and the last-four-digits field is exactly four numeric
characters; otherwise it is rejected with a validation message; and the
digits input handler always leaves at most four digit characters in the
form state. -/
theorem claim_c8_card_form_validation (name lfd ct v : String) :
    (handleSubmit name lfd ct = SubmitResult.requested name lfd ct ↔
      name ≠ "" ∧ regexFourDigitsTest lfd = true) ∧
    (name = "" ∨ regexFourDigitsTest lfd = false →
      ∃ msg, handleSubmit name lfd ct = SubmitResult.rejected msg) ∧
    (handleDigitsChange v).length ≤ 4 ∧
    (handleDigitsChange v).toList.all Char.isDigit = true := by
  have hlen : (handleDigitsChange v).length ≤ 4 := by
    unfold handleDigitsChange
    rw [List.length_asString]
    simp [List.length_take]
  have hdig : (handleDigitsChange v).toList.all Char.isDigit = true := by
    unfold handleDigitsChange
    rw [List.toList_asString]
    rw [List.all_eq_true]
    intro c hc
    exact List.of_mem_filter (List.mem_of_mem_take hc)
  refine ⟨?_, ?_, hlen, hdig⟩
  · constructor
    · intro h
      unfold handleSubmit at h
      by_cases h1 : name == "" || lfd == ""
      · simp [h1] at h
      · by_cases h2 : !(lfd.length == 4) || !(regexFourDigitsTest lfd)
        · simp [h1, h2] at h
        · simp only [Bool.or_eq_true, Bool.not_eq_true', beq_eq_false_iff_ne,
            not_or] at h1 h2
          exact ⟨by simpa using h1.1, by simpa using h2.2⟩
    · intro ⟨hname, htest⟩
      have hlfd : lfd ≠ "" := by
        intro h
        rw [h] at htest
        simp [regexFourDigitsTest] at htest
      have h4 : lfd.length = 4 := by
        have := htest
        unfold regexFourDigitsTest at this
        simp only [Bool.and_eq_true, beq_iff_eq] at this
        exact this.1
      unfold handleSubmit
      simp [hname, hlfd, h4, htest]
  · intro h
    unfold handleSubmit
    by_cases h1 : name == "" || lfd == ""
    · exact ⟨"Please fill in all required fields", by simp [h1]⟩
    · rcases h with hname | htest
      · exfalso
        simp only [Bool.or_eq_true, beq_iff_eq] at h1
        exact h1 (Or.inl hname)
      · have : (!(lfd.length == 4) || !(regexFourDigitsTest lfd)) = true := by
          simp [htest]
        exact ⟨"Please enter exactly 4 digits", by simp [h1, this]⟩

/-- Witness for C8: the valid input issues the request, empty name and
a three-digit entry are rejected, and a noisy paste is stripped and
truncated to four digits. -/
theorem claim_c8_card_form_validation_witness :
    handleSubmit "Personal Visa" "1234" "Visa" =
      SubmitResult.requested "Personal Visa" "1234" "Visa" ∧
    (∃ msg, handleSubmit "" "1234" "Visa" = SubmitResult.rejected msg) ∧
    (∃ msg, handleSubmit "Personal Visa" "123" "Visa" =
      SubmitResult.rejected msg) ∧
    (handleDigitsChange "12ab3456").length ≤ 4 ∧
    (handleDigitsChange "12ab3456").toList.all Char.isDigit = true := by
  refine ⟨?_, ?_, ?_, ?_, ?_⟩
  · exact (claim_c8_card_form_validation "Personal Visa" "1234" "Visa" "").1.mpr
      ⟨by decide, by decide⟩
  · exact (claim_c8_card_form_validation "" "1234" "Visa" "").2.1
      (Or.inl rfl)
  · exact (claim_c8_card_form_validation "Personal Visa" "123" "Visa" "").2.1
      (Or.inr (by decide))
  · exact (claim_c8_card_form_validation "" "" "" "12ab3456").2.2.1
  · exact (claim_c8_card_form_validation "" "" "" "12ab3456").2.2.2

/-- C9: an Expense whose card reference matches no card in the current
list still renders — the rendering loop keeps every item — and its card
label is the empty string. -/
theorem claim_c9_orphaned_card_reference (cards : List CreditCard)
    (cardId : Option Nat) (items : List Expense) :
    ((∀ c ∈ cards, some c.id ≠ cardId) → getCardName cards cardId = "") ∧
    (renderItems items cards).length = items.length ∧
    ∀ item ∈ items,
      (item, getCardName cards item.credit_card_id) ∈
        renderItems items cards := by
  refine ⟨?_, ?_, ?_⟩
  · intro h
    unfold getCardName
    have hnone : cards.find? (fun c => some c.id == cardId) = none :=
      List.find?_eq_none.mpr (fun c hc => by simpa using h c hc)
    rw [hnone]
  · simp [renderItems]
  · intro item hit
    exact List.mem_map_of_mem _ hit

/-- Witness for C9: with an empty card list, the orphaned expense still
renders with the empty label. -/
theorem claim_c9_orphaned_card_reference_witness :
    getCardName [] (some 5) = "" ∧
    (renderItems [orphanExpense] []).length = 1 ∧
    (orphanExpense, getCardName [] orphanExpense.credit_card_id) ∈
      renderItems [orphanExpense] [] := by
  have h := claim_c9_orphaned_card_reference [] (some 5) [orphanExpense]
  exact ⟨h.1 (fun c hc => by cases hc), h.2.1,
    h.2.2 orphanExpense (by simp)⟩

/-- C10: the Analytics savings rate divides only when income is
positive (so the divisor is nonzero) and is 0 otherwise, and the
average monthly savings divides only when the trend list is nonempty
(so the divisor is nonzero) and is 0 for the empty list — neither
computation can divide by zero. -/
theorem claim_c10_analytics_guards (income savings : ℚ)
    (tl : List TrendEntry) :
    (0 < income → income ≠ 0 ∧
      savingsRate income savings = savings / income * 100) ∧
    (¬ 0 < income → savingsRate income savings = 0) ∧
    (0 < tl.length → (tl.length : ℚ) ≠ 0 ∧
      avgMonthlySavings tl = totalSavingsOf tl / (tl.length : ℚ)) ∧
    (tl = [] → avgMonthlySavings tl = 0) := by
  refine ⟨?_, ?_, ?_, ?_⟩
  · intro h
    exact ⟨ne_of_gt h, by simp [savingsRate, h]⟩
  · intro h
    simp [savingsRate, h]
  · intro h
    refine ⟨?_, by simp [avgMonthlySavings, h]⟩
    exact_mod_cast Nat.pos_iff_ne_zero.mp h
  · intro h
    subst h
    simp [avgMonthlySavings]

/-- Witness for C10: a positive income divides by the nonzero income, a
zero income yields rate 0, a singleton trend list divides by 1, and the
empty trend list yields average 0. -/
theorem claim_c10_analytics_guards_witness :
    savingsRate 3000 1500 = 1500 / 3000 * 100 ∧
    savingsRate 0 1500 = 0 ∧
    avgMonthlySavings [sampleTrendEntry] =
      totalSavingsOf [sampleTrendEntry] / 1 ∧
    avgMonthlySavings [] = 0 := by
  have hpos := claim_c10_analytics_guards 3000 1500 [sampleTrendEntry]
  have hzero := claim_c10_analytics_guards 0 1500 ([] : List TrendEntry)
  refine ⟨(hpos.1 (by norm_num)).2, hzero.2.1 (by norm_num), ?_,
    hzero.2.2.2 rfl⟩
  have h1 := (hpos.2.2.1 (by norm_num)).2
  simpa using h1

end FinTracker
